import Mathlib

/-
  Verification of the context & resilience subsystem of businesswalrus/pupv2.

  Shallow embedding: each definition below is translated from the TypeScript
  source file named in its doc comment.  Times are natural numbers in epoch
  milliseconds; JS numbers used as scores are rationals; fallible remote calls
  are parameters describing the outcome of each invocation.
-/

namespace Pup

/-- Circuit-breaker fields of `OpenAIService` (src/services/openai.ts lines
62-68): `consecutiveFailures`, `circuitBreakerOpen`, `circuitBreakerResetTime`
(epoch milliseconds; `none` mirrors the initially-undefined reset time). -/
structure BreakerState where
  consecutiveFailures : Nat
  circuitBreakerOpen : Bool
  circuitBreakerResetTime : Option Nat
  deriving Repr, DecidableEq

/-- The breaker state of a freshly constructed `OpenAIService`. -/
def initialBreaker : BreakerState :=
  { consecutiveFailures := 0, circuitBreakerOpen := false, circuitBreakerResetTime := none }

/-- Outcome of one invocation of the wrapped operation: success with a value,
or a thrown error carrying an optional HTTP `status` field (JS errors may lack
the field, hence `Option Int`). -/
inductive CallOutcome (T : Type) where
  | success (v : T)
  | failure (status : Option Int)
  deriving Repr, DecidableEq

/-- Errors thrown by `retryWithBackoff` to its caller. -/
inductive CallError where
  | circuitOpen
  | opFailed (status : Option Int)
  | retryLogicBug
  deriving Repr, DecidableEq

/-- Result of one wrapped call: what was returned or thrown, the breaker state
afterwards, how many times the underlying operation was invoked, and the
backoff waits (ms) performed between retries, in order. -/
structure CallResult (T : Type) where
  result : Except CallError T
  state : BreakerState
  opInvocations : Nat
  backoffsMs : List Nat
  deriving Repr

/-- Translation of `error.status === 429` (src/services/openai.ts line 115);
a missing status is not a rate-limit error. -/
def isRateLimitStatus (status : Option Int) : Bool :=
  status == some 429

/-- Translation of `error.status >= 500` (src/services/openai.ts line 116);
in JS `undefined >= 500` is false, hence `none` maps to `false`. -/
def isServerErrorStatus (status : Option Int) : Bool :=
  match status with
  | some s => decide (500 ≤ s)
  | none => false

/-- The `for (let attempt = 0; attempt <= maxRetries; attempt++)` loop of
`retryWithBackoff` (src/services/openai.ts lines 99-158), run over the list of
remaining attempt indices (`attempts = [a, a+1, ..., maxRetries]`, so the last
iteration is the one whose tail is empty).  `ops n` is the outcome of the
n-th invocation of the operation; `now` is the clock used when opening the
breaker; `invoked` and `backoffs` accumulate the instrumentation. -/
def retryLoop {T : Type} (ops : Nat → CallOutcome T) (now : Nat) :
    List Nat → Nat → List Nat → BreakerState → CallResult T
  | [], invoked, backoffs, st =>
      -- the loop ran out of attempts: `throw new Error('Retry logic error...')`
      { result := .error .retryLogicBug, state := st, opInvocations := invoked,
        backoffsMs := backoffs }
  | attempt :: rest, invoked, backoffs, st =>
      match ops attempt with
      | .success v =>
          -- success resets the consecutive-failure counter to 0
          { result := .ok v, state := { st with consecutiveFailures := 0 },
            opInvocations := invoked + 1, backoffsMs := backoffs }
      | .failure status =>
          let isLastAttempt := rest.isEmpty
          let shouldRetry :=
            (isRateLimitStatus status || isServerErrorStatus status) && !isLastAttempt
          if shouldRetry then
            retryLoop ops now rest (invoked + 1)
              (backoffs ++ [min (1000 * 2 ^ attempt) 10000]) st
          else
            -- final failure or non-retryable error
            let cf := st.consecutiveFailures + 1
            let st' : BreakerState :=
              if 5 ≤ cf then
                { consecutiveFailures := cf, circuitBreakerOpen := true,
                  circuitBreakerResetTime := some (now + 60000) }
              else { st with consecutiveFailures := cf }
            { result := .error (.opFailed status), state := st',
              opInvocations := invoked + 1, backoffsMs := backoffs }

/-- Translation of `OpenAIService.retryWithBackoff` (src/services/openai.ts
lines 81-161): the circuit-breaker check followed by the retry loop.  The code
compares `new Date() > this.circuitBreakerResetTime`, i.e. strictly greater. -/
def retryWithBackoff {T : Type} (ops : Nat → CallOutcome T) (now : Nat)
    (st : BreakerState) (maxRetries : Nat) : CallResult T :=
  if st.circuitBreakerOpen then
    match st.circuitBreakerResetTime with
    | some resetTime =>
        if resetTime < now then
          -- reset attempt: close the breaker, clear the failure counter
          retryLoop ops now (List.range (maxRetries + 1)) 0 []
            { st with circuitBreakerOpen := false, consecutiveFailures := 0 }
        else
          { result := .error .circuitOpen, state := st, opInvocations := 0,
            backoffsMs := [] }
    | none =>
        { result := .error .circuitOpen, state := st, opInvocations := 0,
          backoffsMs := [] }
  else
    retryLoop ops now (List.range (maxRetries + 1)) 0 [] st

/-- An operation that always throws an error without a status field: each
wrapped call on it fails terminally without retries. -/
def failingOps : Nat → CallOutcome Unit := fun _ => .failure none

/-- Breaker state after one wrapped call of a terminally failing operation at
time `t` (the state `retryWithBackoff` leaves behind). -/
def stepFail (st : BreakerState) (t : Nat) : BreakerState :=
  (retryWithBackoff failingOps t st 3).state

theorem retryLoop_invocations_pos {T : Type} (ops : Nat → CallOutcome T) (now : Nat) :
    ∀ (attempts : List Nat) (invoked : Nat) (backoffs : List Nat) (st : BreakerState),
      attempts ≠ [] →
      invoked + 1 ≤ (retryLoop ops now attempts invoked backoffs st).opInvocations := by
  intro attempts
  induction attempts with
  | nil => intro _ _ _ h; exact absurd rfl h
  | cons attempt rest ih =>
      intro invoked backoffs st _
      simp only [retryLoop]
      cases ops attempt with
      | success v => simp
      | failure status =>
          dsimp only
          by_cases hr :
              ((isRateLimitStatus status || isServerErrorStatus status)
                && !rest.isEmpty) = true
          · rw [if_pos hr]
            have hrest : rest ≠ [] := by
              intro hnil
              rw [hnil] at hr
              simp at hr
            have := ih (invoked + 1)
              (backoffs ++ [min (1000 * 2 ^ attempt) 10000]) st hrest
            omega
          · rw [if_neg hr]

theorem retryWithBackoff_closed {T : Type} (ops : Nat → CallOutcome T) (now : Nat)
    (st : BreakerState) (mr : Nat) (h : st.circuitBreakerOpen = false) :
    retryWithBackoff ops now st mr = retryLoop ops now (List.range (mr + 1)) 0 [] st := by
  simp [retryWithBackoff, h]

/-- C1: starting from the initial breaker state, five consecutive wrapped-call
failures (at times t1..t5) leave the breaker open with scheduled reset time
t5 + 60000 ms.  Any wrapped call at a time now1 not past the reset time fails
with the circuit-open error, invokes the underlying operation zero times and
leaves the state unchanged; a call at a time now2 strictly past the reset time
is let through as a trial: the breaker is closed and cleared for it and the
underlying operation is invoked. -/
theorem c1_circuit_breaker_protocol (t1 t2 t3 t4 t5 now1 now2 : Nat)
    {T : Type} (ops1 ops2 : Nat → CallOutcome T)
    (h1 : now1 ≤ t5 + 60000) (h2 : t5 + 60000 < now2) :
    (stepFail (stepFail (stepFail (stepFail (stepFail initialBreaker t1) t2) t3) t4) t5
      = { consecutiveFailures := 5, circuitBreakerOpen := true,
          circuitBreakerResetTime := some (t5 + 60000) }) ∧
    (retryWithBackoff ops1 now1
        ⟨5, true, some (t5 + 60000)⟩ 3
      = { result := .error .circuitOpen,
          state := ⟨5, true, some (t5 + 60000)⟩,
          opInvocations := 0, backoffsMs := [] }) ∧
    (retryWithBackoff ops2 now2 ⟨5, true, some (t5 + 60000)⟩ 3
      = retryLoop ops2 now2 [0, 1, 2, 3] 0 [] ⟨0, false, some (t5 + 60000)⟩) ∧
    1 ≤ (retryWithBackoff ops2 now2 ⟨5, true, some (t5 + 60000)⟩ 3).opInvocations := by
  refine ⟨rfl, ?_, ?_, ?_⟩
  · have hlt : ¬(t5 + 60000 < now1) := by omega
    simp [retryWithBackoff, hlt]
  · simp only [retryWithBackoff]
    rw [if_pos h2, if_pos trivial]
    exact rfl
  · simp only [retryWithBackoff]
    rw [if_pos h2, if_pos trivial]
    exact retryLoop_invocations_pos ops2 now2 _ 0 [] _ (by simp)

theorem c1_circuit_breaker_protocol_witness :
    (60000 ≤ 0 + 60000) ∧ (0 + 60000 < 60001) ∧
    ((stepFail (stepFail (stepFail (stepFail (stepFail initialBreaker 0) 0) 0) 0) 0
      = { consecutiveFailures := 5, circuitBreakerOpen := true,
          circuitBreakerResetTime := some (0 + 60000) }) ∧
    (retryWithBackoff (fun _ => CallOutcome.success ()) 60000
        ⟨5, true, some (0 + 60000)⟩ 3
      = { result := .error .circuitOpen,
          state := ⟨5, true, some (0 + 60000)⟩,
          opInvocations := 0, backoffsMs := [] }) ∧
    (retryWithBackoff (fun _ => CallOutcome.success ()) 60001
        ⟨5, true, some (0 + 60000)⟩ 3
      = retryLoop (fun _ => CallOutcome.success ()) 60001 [0, 1, 2, 3] 0 []
          ⟨0, false, some (0 + 60000)⟩) ∧
    1 ≤ (retryWithBackoff (fun _ => CallOutcome.success ()) 60001
        ⟨5, true, some (0 + 60000)⟩ 3).opInvocations) :=
  ⟨by decide, by decide,
    c1_circuit_breaker_protocol 0 0 0 0 0 60000 60001
      (fun _ => CallOutcome.success ()) (fun _ => CallOutcome.success ())
      (by decide) (by decide)⟩

/-- C7: a failure is classified transient exactly when its status is 429 or at
least 500 (a missing status is never transient); with maxRetries = 3, an
operation failing transiently on every attempt is invoked 4 times with
backoffs min(1000 * 2^attempt, 10000) = 1000, 2000, 4000 ms and the failure
then propagates; a non-transient failure propagates after one invocation with
no backoff; a transient failure followed by a non-transient one propagates
after the second invocation with the single backoff 1000 ms. -/
theorem c7_transient_classification_and_backoff (now : Nat) (s : Int)
    (statusT statusN : Option Int)
    (hT : (isRateLimitStatus statusT || isServerErrorStatus statusT) = true)
    (hN : (isRateLimitStatus statusN || isServerErrorStatus statusN) = false) :
    ((isRateLimitStatus (some s) || isServerErrorStatus (some s)) = true
      ↔ (s = 429 ∨ 500 ≤ s)) ∧
    ((isRateLimitStatus none || isServerErrorStatus none) = false) ∧
    (retryWithBackoff (fun _ => CallOutcome.failure (T := Unit) statusT) now
        initialBreaker 3
      = { result := .error (.opFailed statusT),
          state := ⟨1, false, none⟩,
          opInvocations := 4, backoffsMs := [1000, 2000, 4000] }) ∧
    (retryWithBackoff (fun _ => CallOutcome.failure (T := Unit) statusN) now
        initialBreaker 3
      = { result := .error (.opFailed statusN),
          state := ⟨1, false, none⟩,
          opInvocations := 1, backoffsMs := [] }) ∧
    (retryWithBackoff
        (fun n => if n = 0 then CallOutcome.failure (T := Unit) statusT
                  else CallOutcome.failure statusN) now initialBreaker 3
      = { result := .error (.opFailed statusN),
          state := ⟨1, false, none⟩,
          opInvocations := 2, backoffsMs := [1000] }) := by
  refine ⟨?_, ?_, ?_, ?_, ?_⟩
  · cases Int.decEq s 429 with
    | isTrue h => simp [isRateLimitStatus, isServerErrorStatus, h]
    | isFalse h => simp [isRateLimitStatus, isServerErrorStatus, h]
  · simp [isRateLimitStatus, isServerErrorStatus]
  · rw [retryWithBackoff_closed _ _ _ _ rfl,
      (rfl : List.range (3 + 1) = [0, 1, 2, 3])]
    simp [retryLoop, hT, initialBreaker]
  · rw [retryWithBackoff_closed _ _ _ _ rfl,
      (rfl : List.range (3 + 1) = [0, 1, 2, 3])]
    simp [retryLoop, hN, initialBreaker]
  · rw [retryWithBackoff_closed _ _ _ _ rfl,
      (rfl : List.range (3 + 1) = [0, 1, 2, 3])]
    simp [retryLoop, hT, hN, initialBreaker]

theorem c7_transient_classification_and_backoff_witness :
    ((isRateLimitStatus (some 503) || isServerErrorStatus (some 503)) = true) ∧
    ((isRateLimitStatus (some 400) || isServerErrorStatus (some 400)) = false) ∧
    (((isRateLimitStatus (some 777) || isServerErrorStatus (some 777)) = true
      ↔ ((777 : Int) = 429 ∨ 500 ≤ (777 : Int))) ∧
    ((isRateLimitStatus none || isServerErrorStatus none) = false) ∧
    (retryWithBackoff (fun _ => CallOutcome.failure (T := Unit) (some 503)) 42
        initialBreaker 3
      = { result := .error (.opFailed (some 503)),
          state := ⟨1, false, none⟩,
          opInvocations := 4, backoffsMs := [1000, 2000, 4000] }) ∧
    (retryWithBackoff (fun _ => CallOutcome.failure (T := Unit) (some 400)) 42
        initialBreaker 3
      = { result := .error (.opFailed (some 400)),
          state := ⟨1, false, none⟩,
          opInvocations := 1, backoffsMs := [] }) ∧
    (retryWithBackoff
        (fun n => if n = 0 then CallOutcome.failure (T := Unit) (some 503)
                  else CallOutcome.failure (some 400)) 42 initialBreaker 3
      = { result := .error (.opFailed (some 400)),
          state := ⟨1, false, none⟩,
          opInvocations := 2, backoffsMs := [1000] })) :=
  ⟨by decide, by decide,
    c7_transient_classification_and_backoff 42 777 (some 503) (some 400)
      (by decide) (by decide)⟩

/-- A buffered Slack message as serialised by `RedisService.bufferMessage`
(src/services/redis.ts lines 84-89): text, user, timestamp, optional thread. -/
structure BufferedMessage where
  text : String
  user : String
  timestamp : String
  thread_ts : Option String
  deriving Repr, DecidableEq

/-- Translation of `RedisService.bufferMessage` (src/services/redis.ts lines
76-105) acting on the list stored at the channel key, with the substrate
connected and healthy: `lPush` prepends the entry, then `lTrim key 0 99`
keeps the first 100 entries.  JSON serialisation of entries round-trips and
is elided; the 24-hour idle `expire` refresh and the disconnected no-op path
are not involved in the properties below. -/
def bufferMessage (buf : List BufferedMessage) (message : BufferedMessage) :
    List BufferedMessage :=
  (message :: buf).take 100

/-- Translation of `RedisService.getRecentMessages` (src/services/redis.ts
lines 110-125): `lRange key 0 (limit - 1)` returns the first `limit` entries,
for the positive limits the code uses. -/
def getRecentMessages (buf : List BufferedMessage) (limit : Nat) :
    List BufferedMessage :=
  buf.take limit

/-- A sequence of appends to one channel's buffer, oldest append first. -/
def appendAll (buf : List BufferedMessage) (ms : List BufferedMessage) :
    List BufferedMessage :=
  ms.foldl bufferMessage buf

theorem take_append_take {α : Type} (xs ys : List α) (n : Nat) :
    (xs ++ ys.take n).take n = (xs ++ ys).take n := by
  rw [List.take_append_eq_append_take, List.take_append_eq_append_take,
    List.take_take, Nat.min_eq_left (Nat.sub_le n xs.length)]

theorem appendAll_cons :
    ∀ (ms : List BufferedMessage) (m : BufferedMessage) (buf : List BufferedMessage),
      appendAll buf (m :: ms) = ((m :: ms).reverse ++ buf).take 100 := by
  intro ms
  induction ms with
  | nil => intro m buf; simp [appendAll, bufferMessage]
  | cons m2 ms2 ih =>
      intro m buf
      have step : appendAll buf (m :: m2 :: ms2)
          = appendAll (bufferMessage buf m) (m2 :: ms2) := rfl
      rw [step, ih]
      simp only [bufferMessage]
      rw [take_append_take]
      simp [List.append_assoc]

/-- C3: for every starting buffer and every sequence of N ≥ 100 appends to a
channel's buffer, the buffer afterwards has length exactly 100, and
recent(100) returns exactly the 100 most-recently appended entries ordered
newest first — the oldest N - 100 appended entries are excluded. -/
theorem c3_buffer_capacity_and_recency (start ms : List BufferedMessage)
    (h : 100 ≤ ms.length) :
    (appendAll start ms).length = 100 ∧
    getRecentMessages (appendAll start ms) 100
      = (ms.drop (ms.length - 100)).reverse := by
  have hne : ms ≠ [] := by
    intro hnil
    rw [hnil] at h
    simp at h
  obtain ⟨m, ms2, rfl⟩ := List.exists_cons_of_ne_nil hne
  rw [appendAll_cons]
  constructor
  · rw [List.length_take]
    simp only [List.length_append, List.length_reverse]
    simp only [List.length_cons] at h ⊢
    omega
  · simp only [getRecentMessages]
    rw [List.take_take, Nat.min_self,
      List.take_append_of_le_length (by simpa using h),
      List.reverse_drop, Nat.sub_sub_self h]

/-- A concrete sequence of 101 distinct appends. -/
def demoMessages : List BufferedMessage :=
  (List.range 101).map
    (fun i => { text := toString i, user := "U1", timestamp := toString i,
                thread_ts := none })

theorem c3_buffer_capacity_and_recency_witness :
    100 ≤ demoMessages.length ∧
    ((appendAll [] demoMessages).length = 100 ∧
     getRecentMessages (appendAll [] demoMessages) 100
       = (demoMessages.drop (demoMessages.length - 100)).reverse) :=
  ⟨by decide, c3_buffer_capacity_and_recency [] demoMessages (by decide)⟩

/-- Redis keys are modelled as character lists so that the key construction by
string interpolation in the source stays inspectable. -/
abbrev RedisKey := List Char

/-- Key `user:${userId}:profile` used by `cacheUserProfile` and
`getCachedUserProfile` (src/services/redis.ts lines 152 and 167). -/
def userProfileKey (userId : List Char) : RedisKey :=
  "user:".data ++ userId ++ ":profile".data

/-- Pattern `user:${slackId}:*` passed to `invalidateCache` by the user-profile
writers, e.g. `updateUserActivity` (src/services/users.ts line 127). -/
def userCachePattern (userId : List Char) : RedisKey :=
  "user:".data ++ userId ++ ":*".data

/-- Key `channel:${channelId}:vibe` used by `cacheChannelVibe` and
`getCachedChannelVibe` (src/services/redis.ts lines 183 and 198) and passed
verbatim as the invalidation pattern by the channel-vibe writers
(src/services/channels.ts lines 181 and 250). -/
def channelVibeKey (channelId : List Char) : RedisKey :=
  "channel:".data ++ channelId ++ ":vibe".data

/-- Matching of the glob patterns this codebase passes to Redis `KEYS`: a
pattern ending in `*` matches every key it prefixes, any other pattern
matches exactly itself.  (These are the only two pattern shapes the source
constructs.) -/
def globMatches (pat key : RedisKey) : Bool :=
  if pat.getLast? == some '*' then pat.dropLast.isPrefixOf key
  else pat == key

/-- The cache substrate: an association list from keys to serialised values. -/
def lookupCache {α : Type} (cache : List (RedisKey × α)) (key : RedisKey) :
    Option α :=
  (cache.find? (fun kv => kv.1 == key)).map (fun kv => kv.2)

/-- Translation of `RedisService.invalidateCache` (src/services/redis.ts lines
210-224) with the substrate connected: `KEYS pattern` then `DEL` of every
match; returns the surviving cache and the number of keys deleted. -/
def invalidateCache {α : Type} (cache : List (RedisKey × α)) (pat : RedisKey) :
    List (RedisKey × α) × Nat :=
  ((cache.filter fun kv => !globMatches pat kv.1),
   (cache.filter fun kv => globMatches pat kv.1).length)

/-- Translation of `setEx` as used by `cacheUserProfile` / `cacheChannelVibe`
(src/services/redis.ts lines 148-158 and 179-189): overwrite the key.  The
TTL argument is kept for fidelity; timed expiry is not involved in the claims
below. -/
def setCache {α : Type} (cache : List (RedisKey × α)) (key : RedisKey) (v : α)
    (ttlSeconds : Nat) : List (RedisKey × α) :=
  (key, v) :: (cache.filter fun kv => kv.1 != key)

/-- Translation of `RedisService.getCachedUserProfile` (src/services/redis.ts
lines 163-174) with the substrate connected. -/
def getCachedUserProfile {α : Type} (cache : List (RedisKey × α))
    (userId : List Char) : Option α :=
  lookupCache cache (userProfileKey userId)

/-- Translation of `RedisService.getCachedChannelVibe` (src/services/redis.ts
lines 194-205) with the substrate connected. -/
def getCachedChannelVibe {α : Type} (cache : List (RedisKey × α))
    (channelId : List Char) : Option α :=
  lookupCache cache (channelVibeKey channelId)

/-- Translation of `updateUserActivity` (src/services/users.ts lines 117-136):
the persistent-store row update (a write to the durable store, elided here)
followed by `invalidateCache('user:' + slackId + ':*')`. -/
def updateUserActivity {α : Type} (cache : List (RedisKey × α))
    (slackId : List Char) : List (RedisKey × α) :=
  (invalidateCache cache (userCachePattern slackId)).1

/-- Translation of the read-through in `ensureUserExists`
(src/services/users.ts lines 37-112): a cache hit returns the cached profile;
on a miss an existing database row is returned and cached with TTL 3600 s; a
missing row creates a new profile, which is returned without caching.  The
Bool component records whether the value was served from the cache. -/
def ensureUserExists {α : Type} (cache : List (RedisKey × α))
    (slackId : List Char) (dbRow : Option α) (newProfile : α) :
    α × Bool × List (RedisKey × α) :=
  match lookupCache cache (userProfileKey slackId) with
  | some cached => (cached, true, cache)
  | none =>
      match dbRow with
      | some row => (row, false, setCache cache (userProfileKey slackId) row 3600)
      | none => (newProfile, false, cache)

/-- Translation of the read-through in `getChannelVibe`
(src/services/channels.ts lines 37-113), same shape as `ensureUserExists`:
hit, or database load cached with TTL 3600 s, or a freshly created default
vibe returned without caching. -/
def getChannelVibe {α : Type} (cache : List (RedisKey × α))
    (channelId : List Char) (dbRow : Option α) (defaultVibe : α) :
    α × Bool × List (RedisKey × α) :=
  match lookupCache cache (channelVibeKey channelId) with
  | some cached => (cached, true, cache)
  | none =>
      match dbRow with
      | some row => (row, false, setCache cache (channelVibeKey channelId) row 3600)
      | none => (defaultVibe, false, cache)

theorem globMatches_userCachePattern (u : List Char) :
    globMatches (userCachePattern u) (userProfileKey u) = true := by
  have hpat : userCachePattern u = "user:".data ++ (u ++ [':', '*']) := rfl
  have hkey : userProfileKey u
      = ("user:".data ++ (u ++ [':'])) ++ "profile".data := by
    simp [userProfileKey, List.append_assoc]
  have hlast : ("user:".data ++ (u ++ [':', '*'])).getLast? = some '*' := by
    rw [List.getLast?_append, List.getLast?_append]
    rfl
  have hdrop : ("user:".data ++ (u ++ [':', '*'])).dropLast
      = "user:".data ++ (u ++ [':']) := by
    rw [List.dropLast_append_of_ne_nil _ (by simp),
      List.dropLast_append_of_ne_nil _ (by simp)]
    rfl
  simp only [globMatches, hpat, hkey, hlast, hdrop, beq_self_eq_true, if_true]
  simp only [List.isPrefixOf_iff_prefix]
  exact ⟨"profile".data, by simp [List.append_assoc]⟩

theorem globMatches_channelVibeKey (c : List Char) :
    globMatches (channelVibeKey c) (channelVibeKey c) = true := by
  have hlast : (channelVibeKey c).getLast? = some 'e' := by
    rw [channelVibeKey, List.getLast?_append, List.getLast?_append]
    rfl
  simp [globMatches, hlast]

theorem lookupCache_invalidate_none {α : Type} (cache : List (RedisKey × α))
    (pat key : RedisKey) (h : globMatches pat key = true) :
    lookupCache (invalidateCache cache pat).1 key = none := by
  simp only [lookupCache, invalidateCache]
  have hfind : ((cache.filter fun kv => !globMatches pat kv.1).find?
      fun kv => kv.1 == key) = none := by
    rw [List.find?_eq_none]
    intro kv hkv hbeq
    have hkeep := (List.mem_filter.mp hkv).2
    have hkeq : kv.1 = key := by simpa using hbeq
    rw [hkeq, h] at hkeep
    simp at hkeep
  rw [hfind]
  rfl

/-- C8: once `updateUserActivity` has invalidated a user's cache namespace,
the next cached read for that user is a miss and `ensureUserExists` reloads
the profile from the persistent store (the pre-invalidation cached value is
never returned); likewise, once the channel-vibe key is invalidated, the next
vibe read is a miss and `getChannelVibe` reloads from the persistent store. -/
theorem c8_invalidate_then_get_reloads {α : Type} (cache : List (RedisKey × α))
    (u c : List Char) (dbRow : Option α) (newProfile row defaultVibe vrow : α) :
    getCachedUserProfile (updateUserActivity cache u) u = none ∧
    (ensureUserExists (updateUserActivity cache u) u dbRow newProfile).2.1
      = false ∧
    (ensureUserExists (updateUserActivity cache u) u (some row) newProfile).1
      = row ∧
    getCachedChannelVibe (invalidateCache cache (channelVibeKey c)).1 c
      = none ∧
    (getChannelVibe (invalidateCache cache (channelVibeKey c)).1 c
        (some vrow) defaultVibe).1 = vrow ∧
    (getChannelVibe (invalidateCache cache (channelVibeKey c)).1 c
        (some vrow) defaultVibe).2.1 = false := by
  have hu : lookupCache (updateUserActivity cache u) (userProfileKey u)
      = none :=
    lookupCache_invalidate_none cache _ _ (globMatches_userCachePattern u)
  have hc : lookupCache (invalidateCache cache (channelVibeKey c)).1
      (channelVibeKey c) = none :=
    lookupCache_invalidate_none cache _ _ (globMatches_channelVibeKey c)
  refine ⟨hu, ?_, ?_, hc, ?_, ?_⟩
  · unfold ensureUserExists
    rw [hu]
    cases dbRow <;> rfl
  · unfold ensureUserExists
    rw [hu]
  · unfold getChannelVibe
    rw [hc]
  · unfold getChannelVibe
    rw [hc]

/-- A row of the `memories` table (src/unnamed/part_000 lines 76-95, the
`createMemoriesTable` schema), with the columns the queries below touch. -/
structure MemoryRow where
  id : String
  content : String
  type : Option String
  channelId : String
  userId : Option String
  hasEmbedding : Bool
  significance : ℚ
  createdAt : Nat
  expiresAt : Option Nat
  referenceCount : Nat
  searchableText : String
  tags : List String
  context : String
  participants : List String
  deriving Repr, DecidableEq

/-- The closed `type` enumeration of the `memories` CHECK constraint
(src/unnamed/part_000 line 80), identical to the zod enum
(src/services/openai.ts line 11). -/
def memoryTypeEnum : List String :=
  ["joke", "fact", "moment", "preference", "relationship", "quote"]

/-- The CHECK constraints of the `memories` table on the columns an insert
supplies: `type IN (...)` (NULL passes) and
`significance_score BETWEEN 0 AND 1`. -/
def memoryRowChecks (r : MemoryRow) : Bool :=
  (match r.type with
   | none => true
   | some t => decide (t ∈ memoryTypeEnum)) &&
  (decide (0 ≤ r.significance) && decide (r.significance ≤ 1))

/-- How an INSERT into `memories` can fail: the substrate itself failing, or
the row violating a CHECK constraint. -/
inductive StorageError where
  | storage
  | checkViolation
  deriving Repr, DecidableEq

/-- An INSERT into the `memories` table via `runQuery` (src/pipeline/memory.ts
lines 39-59): an unavailable or failing substrate rejects, a CHECK violation
rejects, otherwise the row is appended. -/
def insertMemories (store : List MemoryRow) (r : MemoryRow)
    (substrateFails : Bool) : Except StorageError (List MemoryRow) :=
  if substrateFails then .error .storage
  else if memoryRowChecks r then .ok (store ++ [r])
  else .error .checkViolation

/-- The SQL filter `expires_at IS NULL OR expires_at > datetime('now')` used
by both read queries (src/pipeline/memory.ts lines 117 and 185). -/
def notExpired (now : Nat) (r : MemoryRow) : Bool :=
  match r.expiresAt with
  | none => true
  | some e => decide (now < e)

/-- The SQL predicate of `cleanupExpiredMemories`:
`expires_at IS NOT NULL AND expires_at < datetime('now')`
(src/unnamed/part_000 line 233). -/
def isExpiredRow (now : Nat) (r : MemoryRow) : Bool :=
  match r.expiresAt with
  | none => false
  | some e => decide (e < now)

/-- The optional `AND m.channel_id = ?` filter (src/pipeline/memory.ts lines
123-126). -/
def channelMatches (channelFilter : Option String) (r : MemoryRow) : Bool :=
  match channelFilter with
  | none => true
  | some ch => r.channelId == ch

/-- Ascending vector distance, the `ORDER BY vec.distance ASC` key
(src/pipeline/memory.ts line 129). -/
def distLE (a b : MemoryRow × ℚ) : Prop := a.2 ≤ b.2

instance : DecidableRel distLE :=
  fun a b => inferInstanceAs (Decidable (a.2 ≤ b.2))

instance : IsTotal (MemoryRow × ℚ) distLE := ⟨fun a b => le_total a.2 b.2⟩

instance : IsTrans (MemoryRow × ℚ) distLE := ⟨fun _ _ _ h1 h2 => le_trans h1 h2⟩

/-- The `ORDER BY created_at DESC, significance_score DESC` key of
`getRecentMemories` (src/pipeline/memory.ts line 186). -/
def recentOrder (a b : MemoryRow) : Prop :=
  b.createdAt < a.createdAt ∨
    (a.createdAt = b.createdAt ∧ b.significance ≤ a.significance)

instance : DecidableRel recentOrder :=
  fun a b => inferInstanceAs (Decidable (_ ∨ _ ∧ _))

/-- The SELECT of `searchMemories` (src/pipeline/memory.ts lines 108-134):
`vec_memories MATCH` produces candidate (memory_id, distance) pairs — an
oracle input here, since the k-nearest-neighbour scan lives inside the
sqlite-vec extension — which are joined to `memories` by primary key,
filtered by expiry and the optional channel, ordered by distance ascending
and limited.  SQL ORDER BY is modelled by a stable sort.  The follow-up
`reference_count` batch UPDATE only increments a counter on the returned
rows and is not involved in the claims below. -/
def searchMemoriesRows (store : List MemoryRow)
    (vecMatches : List (String × ℚ)) (now : Nat)
    (channelFilter : Option String) (limit : Nat) : List (MemoryRow × ℚ) :=
  let joined := vecMatches.filterMap fun idDist =>
    (store.find? fun r => r.id == idDist.1).map fun r => (r, idDist.2)
  let filtered := joined.filter fun rd =>
    notExpired now rd.1 && channelMatches channelFilter rd.1
  (List.insertionSort distLE filtered).take limit

/-- Translation of the pipeline `searchMemories` (src/pipeline/memory.ts lines
89-169): if `generateEmbedding` failed (it returns an empty array on any
error) or produced a vector whose length is not 1536, the function logs and
returns the empty list; otherwise it runs the vector search.  Any thrown
error is caught and degrades to the empty list, so the model is total. -/
def searchMemories (queryEmbedding : List ℚ) (store : List MemoryRow)
    (vecMatches : List (String × ℚ)) (now : Nat)
    (channelFilter : Option String) (limit : Nat) : List MemoryRow :=
  if queryEmbedding.length ≠ 1536 then []
  else (searchMemoriesRows store vecMatches now channelFilter limit).map
    fun rd => rd.1

/-- Translation of `getRecentMemories` (src/pipeline/memory.ts lines 171-211):
non-expired rows of the channel, ordered by creation time descending then
significance descending, limited. -/
def getRecentMemories (store : List MemoryRow) (now : Nat) (channelId : String)
    (limit : Nat) : List MemoryRow :=
  (List.insertionSort recentOrder
    (store.filter fun r => r.channelId == channelId && notExpired now r)).take
    limit

/-- Translation of `cleanupExpiredMemories` (src/unnamed/part_000 lines
231-236): DELETE of every expired row; returns the surviving store and the
number of rows removed. -/
def cleanupExpiredMemories (store : List MemoryRow) (now : Nat) :
    List MemoryRow × Nat :=
  ((store.filter fun r => !isExpiredRow now r),
   (store.filter fun r => isExpiredRow now r).length)

theorem mem_take_insertionSort {α : Type} (r : α → α → Prop) [DecidableRel r]
    (l : List α) (n : Nat) (a : α)
    (h : a ∈ (List.insertionSort r l).take n) : a ∈ l :=
  ((List.perm_insertionSort r l).mem_iff).mp (List.mem_of_mem_take h)

/-- C6: a memory row whose expiration is set and in the past appears in the
results of neither `searchMemories` nor `getRecentMemories` — for every query
embedding, vector-match candidate list, channel filter and limit — even while
the row is still in the store; `cleanupExpiredMemories` then removes it. -/
theorem c6_expired_rows_invisible (store : List MemoryRow)
    (vec : List (String × ℚ)) (qe : List ℚ) (now : Nat)
    (channelFilter : Option String) (ch : String) (limit : Nat)
    (r : MemoryRow) (e : Nat)
    (hmem : r ∈ store) (hexp : r.expiresAt = some e) (hpast : e < now) :
    r ∉ searchMemories qe store vec now channelFilter limit ∧
    r ∉ getRecentMemories store now ch limit ∧
    r ∉ (cleanupExpiredMemories store now).1 := by
  have hne : notExpired now r = false := by
    rw [notExpired.eq_def, hexp]
    simp
    omega
  have hex : isExpiredRow now r = true := by
    rw [isExpiredRow.eq_def, hexp]
    simp
    omega
  refine ⟨?_, ?_, ?_⟩
  · intro habs
    rw [searchMemories] at habs
    by_cases hlen : qe.length ≠ 1536
    · rw [if_pos hlen] at habs
      simp at habs
    · rw [if_neg hlen] at habs
      obtain ⟨rd, hrd, hfst⟩ := List.mem_map.mp habs
      have hmem2 := mem_take_insertionSort _ _ _ _ hrd
      have hflt := (List.mem_filter.mp hmem2).2
      rw [hfst, hne] at hflt
      simp at hflt
  · intro habs
    rw [getRecentMemories] at habs
    have hmem2 := mem_take_insertionSort _ _ _ _ habs
    have hflt := (List.mem_filter.mp hmem2).2
    rw [hne] at hflt
    simp at hflt
  · intro habs
    rw [cleanupExpiredMemories] at habs
    have hflt := (List.mem_filter.mp habs).2
    rw [hex] at hflt
    simp at hflt

/-- A concrete expired row: expiration 900 ms, observed at time 1000 ms. -/
def expiredRow : MemoryRow :=
  { id := "m0", content := "old news", type := some "fact", channelId := "C1",
    userId := some "U1", hasEmbedding := true, significance := 1,
    createdAt := 100, expiresAt := some 900, referenceCount := 0,
    searchableText := "old news from yesterday", tags := [], context := "",
    participants := [] }

theorem c6_expired_rows_invisible_witness :
    expiredRow ∈ [expiredRow] ∧ expiredRow.expiresAt = some 900 ∧ 900 < 1000 ∧
    (expiredRow ∉ searchMemories (List.replicate 1536 (0 : ℚ)) [expiredRow]
        [("m0", 0)] 1000 none 5 ∧
     expiredRow ∉ getRecentMemories [expiredRow] 1000 "C1" 5 ∧
     expiredRow ∉ (cleanupExpiredMemories [expiredRow] 1000).1) :=
  ⟨by decide, by decide, by decide,
    c6_expired_rows_invisible [expiredRow] [("m0", 0)]
      (List.replicate 1536 (0 : ℚ)) 1000 none "C1" 5 expiredRow 900
      (by decide) (by decide) (by decide)⟩

/-- Modelled from the spec: the keyword ordering it describes for fallback
results, significance descending then recency descending. -/
def keywordOrder (a b : MemoryRow) : Prop :=
  b.significance < a.significance ∨
    (a.significance = b.significance ∧ b.createdAt ≤ a.createdAt)

instance : DecidableRel keywordOrder :=
  fun a b => inferInstanceAs (Decidable (_ ∨ _ ∧ _))

/-- Modelled from the spec: substring containment of `p` in `s`, the matching
the spec's words describe for the keyword fallback. -/
def containsSub (p : List Char) : List Char → Bool
  | [] => p.isPrefixOf []
  | c :: t => p.isPrefixOf (c :: t) || containsSub p t

/-- Modelled from the spec: the substring/keyword fallback the spec claims
`searchMemories` performs when no query embedding is available.  No such code
exists in src/src/pipeline/memory.ts (the function returns an empty list when
the embedding is missing or not 1536-dimensional), so this definition follows
the spec's words alone — substring matching over the records' searchable
text, excluding expired rows, honouring the channel filter, ordered by
significance descending then recency descending, limited — and serves only as
the comparison point for the refutation below. -/
def keywordSearchSpec (query : String) (store : List MemoryRow) (now : Nat)
    (channelFilter : Option String) (limit : Nat) : List MemoryRow :=
  (List.insertionSort keywordOrder
    (store.filter fun r =>
      containsSub query.data r.searchableText.data && notExpired now r
        && channelMatches channelFilter r)).take limit

/-- A live, keyword-matchable row used to exhibit the missing fallback. -/
def pizzaRow : MemoryRow :=
  { id := "m1", content := "pizza party", type := some "moment",
    channelId := "C1", userId := some "U1", hasEmbedding := false,
    significance := 1, createdAt := 500, expiresAt := none,
    referenceCount := 0, searchableText := "pizza party friday", tags := [],
    context := "", participants := [] }

/-- C4 counterexample: with the query embedding unavailable (the empty vector
`generateEmbedding` returns on failure), `searchMemories` returns no results
even though the store holds a live record whose searchable text contains the
query — the fallback the claim describes would have returned that record. -/
theorem c4_counterexample_no_fallback :
    searchMemories [] [pizzaRow] [] 1000 none 5 = [] ∧
    keywordSearchSpec "pizza" [pizzaRow] 1000 none 5 = [pizzaRow] := by
  constructor
  · decide
  · decide

/-- C4 (amended): when the query embedding is unavailable or not of the
canonical dimension 1536, `searchMemories` returns the empty list — a
degraded no-result outcome, not a keyword fallback; when a 1536-dimensional
embedding is available the results are the vector-search rows, whose
distances are ordered ascending. -/
theorem c4_no_embedding_returns_empty (qe qe2 : List ℚ)
    (store : List MemoryRow) (vec : List (String × ℚ)) (now : Nat)
    (channelFilter : Option String) (limit : Nat)
    (h : qe.length ≠ 1536) (h2 : qe2.length = 1536) :
    searchMemories qe store vec now channelFilter limit = [] ∧
    searchMemories qe2 store vec now channelFilter limit
      = (searchMemoriesRows store vec now channelFilter limit).map
          (fun rd => rd.1) ∧
    List.Pairwise distLE (searchMemoriesRows store vec now channelFilter limit) := by
  refine ⟨?_, ?_, ?_⟩
  · rw [searchMemories, if_pos h]
  · rw [searchMemories, if_neg (by rw [h2]; intro hc; exact hc rfl)]
  · rw [searchMemoriesRows]
    exact List.Pairwise.sublist (List.take_sublist _ _)
      (List.sorted_insertionSort distLE _)

theorem c4_no_embedding_returns_empty_witness :
    ([] : List ℚ).length ≠ 1536 ∧
    (List.replicate 1536 (0 : ℚ)).length = 1536 ∧
    (searchMemories [] [pizzaRow] [] 1000 none 5 = [] ∧
     searchMemories (List.replicate 1536 (0 : ℚ)) [pizzaRow] [] 1000 none 5
       = (searchMemoriesRows [pizzaRow] [] 1000 none 5).map (fun rd => rd.1) ∧
     List.Pairwise distLE (searchMemoriesRows [pizzaRow] [] 1000 none 5)) :=
  ⟨by decide, by rw [List.length_replicate], c4_no_embedding_returns_empty []
    (List.replicate 1536 0) [pizzaRow] [] 1000 none 5 (by decide)
    (by rw [List.length_replicate])⟩

/-- A Slack message context (src/services/openai.ts lines 22-33); the optional
recentMessages array does not affect the properties below and is elided. -/
structure MessageContext where
  text : String
  user : String
  channel : String
  timestamp : String
  thread_ts : Option String
  deriving Repr, DecidableEq

/-- The `extractedEntities` object of the decision record
(src/services/openai.ts lines 13-17). -/
structure ExtractedEntities where
  topics : List String
  emotions : List String
  references : List String
  deriving Repr, DecidableEq

/-- The decision record `IngestionResult` (src/services/openai.ts lines
8-20). -/
structure IngestionResult where
  shouldFormMemory : Bool
  shouldRespond : Bool
  memoryType : Option String
  significance : ℚ
  extractedEntities : ExtractedEntities
  deriving Repr, DecidableEq

/-- The `Memory` interface (src/services/openai.ts lines 35-44). -/
structure Memory where
  content : String
  context : String
  participants : List String
  embedding : Option (List ℚ)
  tags : List String
  searchableText : String
  type : String
  significance : ℚ
  deriving Repr, DecidableEq

/-- A parsed JSON object as far as `IngestionResultSchema.parse` inspects it:
each field is either absent or of the wrong type (`none`) or present with the
required type (`some`). -/
structure RawIngestion where
  shouldFormMemory : Option Bool
  shouldRespond : Option Bool
  memoryType : Option String
  significance : Option ℚ
  topics : Option (List String)
  emotions : Option (List String)
  references : Option (List String)
  deriving Repr, DecidableEq

/-- The error a failed zod schema parse throws. -/
inductive ValidationError where
  | invalid
  deriving Repr, DecidableEq

/-- Translation of `IngestionResultSchema.parse` (src/services/openai.ts lines
8-18): every required field must be present with the right type,
`significance` must satisfy `min(0).max(1)`, and `memoryType`, when present,
must belong to the closed enumeration. -/
def IngestionResultSchemaParse (r : RawIngestion) :
    Except ValidationError IngestionResult :=
  match r.shouldFormMemory, r.shouldRespond, r.significance,
      r.topics, r.emotions, r.references with
  | some f, some resp, some s, some ts, some es, some refs =>
      if 0 ≤ s then
        if s ≤ 1 then
          match r.memoryType with
          | none => .ok ⟨f, resp, none, s, ⟨ts, es, refs⟩⟩
          | some t =>
              if t ∈ memoryTypeEnum then
                .ok ⟨f, resp, some t, s, ⟨ts, es, refs⟩⟩
              else .error .invalid
        else .error .invalid
      else .error .invalid
  | _, _, _, _, _, _ => .error .invalid

/-- The safe default decision `ingestMessage` returns from its catch block
(src/services/openai.ts lines 256-265). -/
def safeIngestionDefault : IngestionResult :=
  { shouldFormMemory := false, shouldRespond := false, memoryType := none,
    significance := 0, extractedEntities := ⟨[], [], []⟩ }

/-- Translation of `OpenAIService.ingestMessage` (src/services/openai.ts lines
163-267) downstream of the wrapped chat call: `callResult` is what
`retryWithBackoff` returned or threw, carrying
`choices[0]?.message?.content`; `jsonParse` is JSON.parse, `none` when it
throws.  Every failure — thrown wrapper error, missing content, malformed
JSON, schema rejection — lands in the catch block, which returns the safe
default, so the function is total. -/
def ingestMessage (callResult : Except CallError (Option String))
    (jsonParse : String → Option RawIngestion) : IngestionResult :=
  match callResult with
  | .error _ => safeIngestionDefault
  | .ok none => safeIngestionDefault
  | .ok (some content) =>
      match jsonParse content with
      | none => safeIngestionDefault
      | some raw =>
          match IngestionResultSchemaParse raw with
          | .error _ => safeIngestionDefault
          | .ok v => v

/-- Whether the classification attempt failed at any stage (wrapped call,
content extraction, JSON parse, schema validation). -/
def classificationFailed (callResult : Except CallError (Option String))
    (jsonParse : String → Option RawIngestion) : Bool :=
  match callResult with
  | .error _ => true
  | .ok none => true
  | .ok (some content) =>
      match jsonParse content with
      | none => true
      | some raw =>
          match IngestionResultSchemaParse raw with
          | .error _ => true
          | .ok _ => false

/-- `ingestMessage` with its chat call actually run through the wrapper
(src/services/openai.ts lines 209-221). -/
def ingestMessageViaWrapper (ops : Nat → CallOutcome (Option String))
    (now : Nat) (st : BreakerState)
    (jsonParse : String → Option RawIngestion) : IngestionResult :=
  ingestMessage (retryWithBackoff ops now st 3).result jsonParse

/-- C10: `ingestMessage` is total at its interface — whenever the wrapped
classification call fails in any way (thrown wrapper error including circuit
open, missing content, malformed JSON, or schema rejection) it returns the
safe default decision; in particular with the breaker open before its reset
time, the wrapped variant returns the safe default. -/
theorem c10_ingest_total_safe_default
    (callResult : Except CallError (Option String))
    (jsonParse : String → Option RawIngestion)
    (ops : Nat → CallOutcome (Option String)) (now rt : Nat)
    (st : BreakerState)
    (hFail : classificationFailed callResult jsonParse = true)
    (hOpen : st.circuitBreakerOpen = true)
    (hRt : st.circuitBreakerResetTime = some rt) (hNow : now ≤ rt) :
    ingestMessage callResult jsonParse = safeIngestionDefault ∧
    ingestMessageViaWrapper ops now st jsonParse = safeIngestionDefault := by
  constructor
  · cases callResult with
    | error e => rfl
    | ok oc =>
        cases oc with
        | none => rfl
        | some content =>
            cases hjp : jsonParse content with
            | none => simp [ingestMessage, hjp]
            | some raw =>
                cases hv : IngestionResultSchemaParse raw with
                | error err => simp [ingestMessage, hjp, hv]
                | ok v =>
                    rw [classificationFailed, hjp] at hFail
                    dsimp only at hFail
                    rw [hv] at hFail
                    simp at hFail
  · rw [ingestMessageViaWrapper, retryWithBackoff, hOpen, hRt]
    rw [if_pos rfl]
    dsimp only
    rw [if_neg (by omega : ¬(rt < now))]
    rfl

theorem c10_ingest_total_safe_default_witness :
    classificationFailed (.error .circuitOpen) (fun _ => none) = true ∧
    (⟨5, true, some 60000⟩ : BreakerState).circuitBreakerOpen = true ∧
    (⟨5, true, some 60000⟩ : BreakerState).circuitBreakerResetTime
      = some 60000 ∧
    (30000 : Nat) ≤ 60000 ∧
    (ingestMessage (.error .circuitOpen) (fun _ => none)
        = safeIngestionDefault ∧
     ingestMessageViaWrapper (fun _ => CallOutcome.success (some "x")) 30000
        ⟨5, true, some 60000⟩ (fun _ => none) = safeIngestionDefault) :=
  ⟨by decide, by decide, by decide, by decide,
    c10_ingest_total_safe_default (.error .circuitOpen) (fun _ => none)
      (fun _ => CallOutcome.success (some "x")) 30000 60000
      ⟨5, true, some 60000⟩ (by decide) (by decide) (by decide) (by decide)⟩

/-- What the memory-formation LLM interaction yields when the remote call and
the JSON parse succeed: the parsed fields plus the generated embedding
(`generateEmbedding` returns an empty vector on its own failure,
src/services/openai.ts lines 435-447). -/
structure LlmMemoryParts where
  content : String
  context : String
  participants : List String
  tags : List String
  searchableText : String
  embedding : List ℚ
  deriving Repr, DecidableEq

namespace OpenAIService

/-- Translation of `OpenAIService.formMemory` (src/services/openai.ts lines
269-360): null unless the decision asked for a memory and carries a memory
type; otherwise the memory assembled from the LLM response — `llm` is `none`
when the call, the content extraction or JSON.parse threw, in which case the
catch block returns null — with `type` and `significance` copied from the
ingestion decision. -/
def formMemory (ing : IngestionResult) (llm : Option LlmMemoryParts) :
    Option Memory :=
  if !ing.shouldFormMemory then none
  else
    match ing.memoryType with
    | none => none
    | some mt =>
        match llm with
        | none => none
        | some p =>
            some { content := p.content, context := p.context,
                   participants := p.participants,
                   embedding := some p.embedding, tags := p.tags,
                   searchableText := p.searchableText, type := mt,
                   significance := ing.significance }

end OpenAIService

/-- The result record of `processMessage` (src/pipeline/index.ts lines
13-17). -/
structure ProcessMessageResult where
  response : Option String
  memoryFormed : Bool
  shouldTrackCost : Bool
  deriving Repr, DecidableEq

namespace Pipeline

/-- The `memories` row the pipeline `formMemory` inserts (src/pipeline/memory.ts
lines 39-59): fresh id, expiry now + MEMORY_EXPIRATION_DAYS (default 180)
days — calendar day arithmetic modelled as fixed 86400000 ms days — and the
embedding stored when present. -/
def memoryRowFor (memoryId : String) (msg : MessageContext) (m : Memory)
    (now : Nat) : MemoryRow :=
  { id := memoryId, content := m.content, type := some m.type,
    channelId := msg.channel, userId := some msg.user,
    hasEmbedding := m.embedding.isSome, significance := m.significance,
    createdAt := now, expiresAt := some (now + 180 * 86400000),
    referenceCount := 0, searchableText := m.searchableText, tags := m.tags,
    context := m.context, participants := m.participants }

/-- Translation of the pipeline `formMemory` (src/pipeline/memory.ts lines
6-87): nothing when the decision says no memory; otherwise the service-level
formation runs, and when it produced a memory the row insert is attempted — a
failing insert is caught and swallowed (`catch (dbError)` logs only), the
memory still being returned.  The `vec_memories` index insert touches only
the vector table and is elided.  Returns the formMemory result together with
the resulting memories store; the outer catch makes the function total. -/
def formMemory (msg : MessageContext) (ing : IngestionResult)
    (llm : Option LlmMemoryParts) (memoryId : String) (now : Nat)
    (substrateFails : Bool) (store : List MemoryRow) :
    Option Memory × List MemoryRow :=
  if !ing.shouldFormMemory then (none, store)
  else
    match OpenAIService.formMemory ing llm with
    | none => (none, store)
    | some m =>
        match insertMemories store (memoryRowFor memoryId msg m now)
            substrateFails with
        | .ok newStore => (some m, newStore)
        | .error _ => (some m, store)

/-- Translation of `processMessage` (src/pipeline/index.ts lines 19-76):
after ingestion, memory formation and response generation run concurrently
and are joined by `Promise.all`; both branches catch their own errors, so the
join always completes — `responseOutcome` is what the response branch
resolved to.  `memoryFormed` is the truthiness of the formMemory result. -/
def processMessage (msg : MessageContext) (ing : IngestionResult)
    (llm : Option LlmMemoryParts) (memoryId : String) (now : Nat)
    (substrateFails : Bool) (store : List MemoryRow)
    (responseOutcome : Option String) :
    ProcessMessageResult × List MemoryRow :=
  let fm := formMemory msg ing llm memoryId now substrateFails store
  ({ response := responseOutcome, memoryFormed := fm.1.isSome,
     shouldTrackCost := true }, fm.2)

end Pipeline

/-- A concrete message for the counterexamples. -/
def demoMsg : MessageContext :=
  { text := "we should remember this", user := "U1", channel := "C1",
    timestamp := "111.22", thread_ts := none }

/-- A concrete positive ingestion decision. -/
def demoIng : IngestionResult :=
  { shouldFormMemory := true, shouldRespond := true,
    memoryType := some "fact", significance := 4/5,
    extractedEntities := ⟨["lunch"], [], []⟩ }

/-- A concrete successful LLM memory-formation outcome. -/
def demoParts : LlmMemoryParts :=
  { content := "the team lunches on fridays", context := "said in passing",
    participants := ["U1"], tags := ["food"],
    searchableText := "team lunch friday", embedding := [] }

/-- C2 counterexample: with a positive decision, a formed memory and a failing
persistence write, the pipeline `formMemory` returns the memory (not null)
and `processMessage` reports memoryFormed: true — the claim says null and
false.  (No exception escapes and the response completes, which the amended
theorem below records.) -/
theorem c2_counterexample_memory_formed_true :
    (Pipeline.formMemory demoMsg demoIng (some demoParts) "m9" 1000 true []).1
      ≠ none ∧
    (Pipeline.processMessage demoMsg demoIng (some demoParts) "m9" 1000 true []
        (some "sounds good")).1.memoryFormed = true := by
  constructor
  · decide
  · decide

/-- C2 (amended): when the decision asks for a memory with a type and the LLM
formation succeeded, a failing persistence write is logged and swallowed —
formMemory propagates no exception (the model is total), nothing is persisted
(the store is unchanged) — but formMemory returns the formed memory, so the
pipeline result reports memoryFormed: true while response generation still
completes with its own outcome. -/
theorem c2_storage_failure_swallowed (msg : MessageContext)
    (ing : IngestionResult) (p : LlmMemoryParts) (mt memoryId : String)
    (now : Nat) (store : List MemoryRow) (resp : Option String)
    (hF : ing.shouldFormMemory = true) (hmt : ing.memoryType = some mt) :
    Pipeline.formMemory msg ing (some p) memoryId now true store
      = (some { content := p.content, context := p.context,
                participants := p.participants,
                embedding := some p.embedding, tags := p.tags,
                searchableText := p.searchableText, type := mt,
                significance := ing.significance }, store) ∧
    Pipeline.processMessage msg ing (some p) memoryId now true store resp
      = ({ response := resp, memoryFormed := true,
           shouldTrackCost := true }, store) := by
  have hsvc : OpenAIService.formMemory ing (some p)
      = some { content := p.content, context := p.context,
               participants := p.participants,
               embedding := some p.embedding, tags := p.tags,
               searchableText := p.searchableText, type := mt,
               significance := ing.significance } := by
    rw [OpenAIService.formMemory, hF, hmt]
    rfl
  have hfm : Pipeline.formMemory msg ing (some p) memoryId now true store
      = (some { content := p.content, context := p.context,
                participants := p.participants,
                embedding := some p.embedding, tags := p.tags,
                searchableText := p.searchableText, type := mt,
                significance := ing.significance }, store) := by
    rw [Pipeline.formMemory, hF, hsvc]
    rfl
  refine ⟨hfm, ?_⟩
  rw [Pipeline.processMessage, hfm]
  rfl

theorem c2_storage_failure_swallowed_witness :
    demoIng.shouldFormMemory = true ∧ demoIng.memoryType = some "fact" ∧
    (Pipeline.formMemory demoMsg demoIng (some demoParts) "m9" 1000 true []
      = (some { content := demoParts.content, context := demoParts.context,
                participants := demoParts.participants,
                embedding := some demoParts.embedding, tags := demoParts.tags,
                searchableText := demoParts.searchableText, type := "fact",
                significance := demoIng.significance }, []) ∧
     Pipeline.processMessage demoMsg demoIng (some demoParts) "m9" 1000 true []
        (some "sounds good")
      = ({ response := some "sounds good", memoryFormed := true,
           shouldTrackCost := true }, [])) :=
  ⟨by decide, by decide,
    c2_storage_failure_swallowed demoMsg demoIng demoParts "fact" "m9" 1000 []
      (some "sounds good") (by decide) (by decide)⟩

theorem parse_rejects_out_of_range (raw : RawIngestion) (s : ℚ)
    (hraw : raw.significance = some s) (hs : s < 0 ∨ 1 < s) :
    IngestionResultSchemaParse raw = .error .invalid := by
  obtain ⟨f, r, mt, sig, t, e, rf⟩ := raw
  simp only at hraw
  subst hraw
  cases f <;> cases r <;> cases t <;> cases e <;> cases rf <;> try rfl
  all_goals
    rw [IngestionResultSchemaParse]
    dsimp only
    rcases hs with h | h
    · rw [if_neg (not_le.mpr h)]
    · rw [if_pos ((zero_le_one.trans_lt h).le), if_neg (not_le.mpr h)]

/-- C5: a significance outside [0, 1] — such as 3/2 or -1/10 — is rejected at
construction by the zod schema parse of the classification result (the only
producer of the significance a Memory is built from), and even a raw
`memories` row carrying such a value is rejected by the table CHECK
constraint, so such a record is never persisted: the pipeline `formMemory`
leaves the store unchanged when the decision's significance is out of
range. -/
theorem c5_significance_range_validated (s1 s2 : ℚ) (raw1 raw2 : RawIngestion)
    (store : List MemoryRow) (row1 row2 : MemoryRow) (msg : MessageContext)
    (ing : IngestionResult) (p : LlmMemoryParts) (mt memoryId : String)
    (now : Nat)
    (h1 : 1 < s1) (h2 : s2 < 0)
    (hraw1 : raw1.significance = some s1) (hraw2 : raw2.significance = some s2)
    (hrow1 : row1.significance = s1) (hrow2 : row2.significance = s2)
    (hsig : ing.significance = s1) (hF : ing.shouldFormMemory = true)
    (hmt : ing.memoryType = some mt) :
    IngestionResultSchemaParse raw1 = .error .invalid ∧
    IngestionResultSchemaParse raw2 = .error .invalid ∧
    insertMemories store row1 false = .error .checkViolation ∧
    insertMemories store row2 false = .error .checkViolation ∧
    (Pipeline.formMemory msg ing (some p) memoryId now false store).2
      = store := by
  have hc1 : memoryRowChecks row1 = false := by
    rw [memoryRowChecks, hrow1]
    simp [not_le.mpr h1]
  have hc2 : memoryRowChecks row2 = false := by
    rw [memoryRowChecks, hrow2]
    simp [not_le.mpr h2]
  refine ⟨parse_rejects_out_of_range raw1 s1 hraw1 (Or.inr h1),
    parse_rejects_out_of_range raw2 s2 hraw2 (Or.inl h2), ?_, ?_, ?_⟩
  · rw [insertMemories, if_neg (by simp), if_neg (by rw [hc1]; simp)]
  · rw [insertMemories, if_neg (by simp), if_neg (by rw [hc2]; simp)]
  · have hsvc : OpenAIService.formMemory ing (some p)
        = some { content := p.content, context := p.context,
                 participants := p.participants,
                 embedding := some p.embedding, tags := p.tags,
                 searchableText := p.searchableText, type := mt,
                 significance := ing.significance } := by
      rw [OpenAIService.formMemory, hF, hmt]
      rfl
    have hrowc : memoryRowChecks
        (Pipeline.memoryRowFor memoryId msg
          { content := p.content, context := p.context,
            participants := p.participants, embedding := some p.embedding,
            tags := p.tags, searchableText := p.searchableText, type := mt,
            significance := ing.significance } now) = false := by
      rw [memoryRowChecks]
      simp [Pipeline.memoryRowFor, hsig, not_le.mpr h1]
    rw [Pipeline.formMemory, hF, hsvc]
    dsimp only
    rw [insertMemories]
    simp [hrowc]

/-- A raw classification object, well-typed except for significance 2. -/
def rawHigh : RawIngestion :=
  { shouldFormMemory := some true, shouldRespond := some false,
    memoryType := some "fact", significance := some 2,
    topics := some [], emotions := some [], references := some [] }

/-- A raw classification object, well-typed except for significance -1. -/
def rawLow : RawIngestion :=
  { shouldFormMemory := some true, shouldRespond := some false,
    memoryType := some "fact", significance := some (-1),
    topics := some [], emotions := some [], references := some [] }

/-- A memories row carrying significance 2. -/
def rowHigh : MemoryRow :=
  { expiredRow with id := "mh", significance := 2, expiresAt := none }

/-- A memories row carrying significance -1. -/
def rowLow : MemoryRow :=
  { expiredRow with id := "ml", significance := -1, expiresAt := none }

/-- An ingestion decision carrying significance 2. -/
def ingHigh : IngestionResult :=
  { demoIng with significance := 2 }

theorem c5_significance_range_validated_witness :
    (1 : ℚ) < 2 ∧ (-1 : ℚ) < 0 ∧
    rawHigh.significance = some 2 ∧
    rawLow.significance = some (-1) ∧
    rowHigh.significance = (2 : ℚ) ∧ rowLow.significance = (-1 : ℚ) ∧
    ingHigh.significance = (2 : ℚ) ∧ ingHigh.shouldFormMemory = true ∧
    ingHigh.memoryType = some "fact" ∧
    (IngestionResultSchemaParse rawHigh = .error .invalid ∧
     IngestionResultSchemaParse rawLow = .error .invalid ∧
     insertMemories [] rowHigh false = .error .checkViolation ∧
     insertMemories [] rowLow false = .error .checkViolation ∧
     (Pipeline.formMemory demoMsg ingHigh (some demoParts) "m5" 1000 false
        []).2 = []) :=
  ⟨by decide, by decide, by decide, by decide, by decide, by decide,
   by decide, by decide, by decide,
    c5_significance_range_validated 2 (-1) rawHigh rawLow []
      rowHigh rowLow demoMsg ingHigh demoParts "fact" "m5" 1000
      (by decide) (by decide) (by decide) (by decide) (by decide) (by decide)
      (by decide) (by decide) (by decide)⟩

/-- Translation of `OpenAIService.generateResponse` (src/services/openai.ts
lines 362-433): null unless shouldRespond; otherwise the model call
`client.responses.create` is made directly — not through `retryWithBackoff`,
and without consulting the breaker fields, which are taken as arguments here
precisely to show they are ignored.  A thrown error is caught and null
returned; a falsy `output_text` (the empty string) also yields null.  The
second component counts invocations of the underlying model operation. -/
def generateResponse (shouldRespond : Bool) (breaker : BreakerState)
    (now : Nat) (modelCall : CallOutcome String) : Option String × Nat :=
  if !shouldRespond then (none, 0)
  else
    match modelCall with
    | .success t => (if t == "" then none else some t, 1)
    | .failure _ => (none, 1)

/-- C9 counterexample: with the breaker open (5 failures, reset time 100000)
at time 50 — before the reset time — `generateResponse` still invokes the
underlying model operation (once) and returns its output, while a call routed
through `retryWithBackoff` at the same instant would have been refused with
zero invocations: response generation is not guarded by the wrapper. -/
theorem c9_counterexample_not_wrapped :
    (generateResponse true ⟨5, true, some 100000⟩ 50
        (CallOutcome.success "hi")).2 = 1 ∧
    (generateResponse true ⟨5, true, some 100000⟩ 50
        (CallOutcome.success "hi")).1 = some "hi" ∧
    (retryWithBackoff (fun _ => CallOutcome.success "hi") 50
        ⟨5, true, some 100000⟩ 3).opInvocations = 0 := by
  refine ⟨by decide, by decide, by decide⟩

/-- C9 (amended): `generateResponse` does not use the resilient call wrapper:
whenever shouldRespond is true it invokes the model exactly once, for every
breaker state and time — an open breaker before its reset time included —
with a thrown model error caught and mapped to null; when shouldRespond is
false the model is not invoked. -/
theorem c9_generateResponse_unwrapped (breaker : BreakerState) (now : Nat)
    (status : Option Int) (modelCall : CallOutcome String) :
    (generateResponse true breaker now modelCall).2 = 1 ∧
    generateResponse true breaker now (CallOutcome.failure status)
      = (none, 1) ∧
    generateResponse false breaker now modelCall = (none, 0) := by
  refine ⟨?_, rfl, ?_⟩
  · cases modelCall <;> rfl
  · cases modelCall <;> rfl
